import Mathlib

/-
A verification development for the windowing/compositing core of the guiGL
repository (Go package `win`).  The definitions below are shallow embeddings,
translated directly from the source:

  * `Pt`, `Rct` and their operations mirror Go's `image.Point` /
    `image.Rectangle` (`Union`, `Intersect`, `Empty`, `In`, `Rect`, `ZR`),
    which the coordinator uses for damage tracking;
  * `Surface`, `newRGBA` and `drawSrc` mirror `image.NewRGBA` and
    `draw.Draw(..., draw.Src)` as used by the resize branch of
    `openGLThread`;
  * `step` / `runMsgs` embed the select-loop of `(*Win).openGLThread`
    (the richer `win.go` variant, whose message alphabet is a superset of
    the simpler variant's), emitting a trace of effects;
  * `openGLRenderGui` and `openGLFlush` embed the two flush routines as
    lists of issued GL commands;
  * `computeDpiScale`, the callback functions and `eventLoop` embed the
    constructor's hiDPI computation and `(*Win).eventThread`.
-/

namespace GuiGL

/-- A point as in Go's image.Point: integer x and y coordinates. -/
structure Pt where
  x : Int
  y : Int
deriving DecidableEq, Repr

/-- An axis-aligned rectangle as in Go's image.Rectangle: Min and Max points,
with the usual half-open convention. -/
structure Rct where
  minP : Pt
  maxP : Pt
deriving DecidableEq, Repr

/-- The zero rectangle image.ZR. -/
def ZR : Rct := ⟨⟨0, 0⟩, ⟨0, 0⟩⟩

/-- Go (Rectangle).Empty: reports whether the rectangle contains no points. -/
def Rct.isEmpty (r : Rct) : Bool :=
  decide (r.minP.x ≥ r.maxP.x) || decide (r.minP.y ≥ r.maxP.y)

/-- Go (Rectangle).Dx: the width of the rectangle. -/
def Rct.dx (r : Rct) : Int := r.maxP.x - r.minP.x

/-- Go (Rectangle).Dy: the height of the rectangle. -/
def Rct.dy (r : Rct) : Int := r.maxP.y - r.minP.y

/-- Go (Rectangle).Union: the smallest rectangle containing both r and s;
an empty operand is the identity. -/
def Rct.union (r s : Rct) : Rct :=
  if r.isEmpty then s
  else if s.isEmpty then r
  else ⟨⟨min r.minP.x s.minP.x, min r.minP.y s.minP.y⟩,
        ⟨max r.maxP.x s.maxP.x, max r.maxP.y s.maxP.y⟩⟩

/-- Go (Rectangle).Intersect: the largest rectangle contained in both r and
s; ZR when they do not overlap. -/
def Rct.inter (r s : Rct) : Rct :=
  let t : Rct := ⟨⟨max r.minP.x s.minP.x, max r.minP.y s.minP.y⟩,
                  ⟨min r.maxP.x s.maxP.x, min r.maxP.y s.maxP.y⟩⟩
  if t.isEmpty then ZR else t

/-- Go (Rectangle).In: reports whether every point of r is in s. -/
def Rct.isIn (r s : Rct) : Bool :=
  if r.isEmpty then true
  else decide (s.minP.x ≤ r.minP.x) && decide (r.maxP.x ≤ s.maxP.x) &&
       decide (s.minP.y ≤ r.minP.y) && decide (r.maxP.y ≤ s.maxP.y)

/-- Go image.Rect(x0, y0, x1, y1): swaps coordinates into canonical order. -/
def mkRect (x0 y0 x1 y1 : Int) : Rct :=
  let xs := if x0 > x1 then (x1, x0) else (x0, x1)
  let ys := if y0 > y1 then (y1, y0) else (y0, y1)
  ⟨⟨xs.1, ys.1⟩, ⟨xs.2, ys.2⟩⟩

/-- Go (Point).In(r): membership of a point in a rectangle. -/
def Pt.inRect (p : Pt) (r : Rct) : Bool :=
  decide (r.minP.x ≤ p.x) && decide (p.x < r.maxP.x) &&
  decide (r.minP.y ≤ p.y) && decide (p.y < r.maxP.y)

/-- Pointwise sum, Go (Point).Add. -/
def Pt.add (p q : Pt) : Pt := ⟨p.x + q.x, p.y + q.y⟩

/-- Pointwise difference, Go (Point).Sub. -/
def Pt.sub (p q : Pt) : Pt := ⟨p.x - q.x, p.y - q.y⟩

/-- Go (Rectangle).Add: translate a rectangle by a point. -/
def Rct.addPt (r : Rct) (p : Pt) : Rct := ⟨r.minP.add p, r.maxP.add p⟩

/-- An RGBA pixel value, one byte per channel as in Go's color.RGBA. -/
structure Pixel where
  r : Nat
  g : Nat
  b : Nat
  a : Nat
deriving DecidableEq, Repr

/-- The zero (fully transparent) pixel: a fresh Go RGBA buffer is
zero-initialized. -/
def zeroPixel : Pixel := ⟨0, 0, 0, 0⟩

/-- An RGBA raster as in Go's image.RGBA: bounds plus a pixel lookup.
Points outside the bounds are carried by the function but are never
meaningful. -/
structure Surface where
  bounds : Rct
  pix : Pt → Pixel

/-- Go image.NewRGBA(r): a surface with bounds r, all pixels zero
(transparent). -/
def newRGBA (r : Rct) : Surface := ⟨r, fun _ => zeroPixel⟩

/-- Go draw.Draw(dst, r, src, sp, draw.Src): copy src into the sub-rectangle
r of dst, aligning sp in src with r.Min in dst, clipped to both bounds
(draw.clip shrinks r to r ∩ dst.Bounds() ∩ (src.Bounds() + (r.Min − sp))). -/
def drawSrc (dst : Surface) (r : Rct) (src : Surface) (sp : Pt) : Surface :=
  let clipped := (r.inter dst.bounds).inter (src.bounds.addPt (r.minP.sub sp))
  ⟨dst.bounds, fun q =>
    if q.inRect clipped then src.pix ((q.sub r.minP).add sp) else dst.pix q⟩

/-- The resize branch of openGLThread:
img := image.NewRGBA(r); draw.Draw(img, w.img.Bounds(), w.img,
w.img.Bounds().Min, draw.Src); w.img = img. -/
def resizeImg (img : Surface) (r : Rct) : Surface :=
  drawSrc (newRGBA r) img.bounds img img.bounds.minP

/-- A mouse button as classified by the `win` package.  The Go source
represents Button as a string type with the three constants "left",
"right" and "middle". -/
inductive MButton where
  | btnLeft
  | btnRight
  | btnMiddle
deriving DecidableEq, Repr

/-- A keyboard key as classified by the `win` package (the Go `Key` int
enumeration, in iota order). -/
inductive KeyV where
  | keyLeft
  | keyRight
  | keyUp
  | keyDown
  | keyEscape
  | keySpace
  | keyBackspace
  | keyDelete
  | keyEnter
  | keyTab
  | keyHome
  | keyEnd
  | keyPageUp
  | keyPageDown
  | keyShift
  | keyCtrl
  | keyAlt
deriving DecidableEq, Repr

/-- An outward event of the window, mirroring the event structs of the Go
source (WiClose, MoMove, MoDown, MoUp, MoScroll, KbType, KbDown, KbUp,
KbRepeat, gui.Resize).  The rune of KbType is carried as its code point. -/
inductive Event where
  | wiClose
  | moMove (p : Pt)
  | moDown (p : Pt) (b : MButton)
  | moUp (p : Pt) (b : MButton)
  | moScroll (p : Pt)
  | kbType (code : Nat)
  | kbDown (k : KeyV)
  | kbUp (k : KeyV)
  | kbRepeat (k : KeyV)
  | resizeEv (r : Rct)
deriving DecidableEq, Repr

/-- A GLFW input action (glfw.Press, glfw.Release, glfw.Repeat). -/
inductive GlfwAction where
  | press
  | release
  | rep
deriving DecidableEq, Repr

/-- The `buttons` translation map of the Go source, keyed by GLFW mouse
button codes (MouseButtonLeft = 0, MouseButtonRight = 1,
MouseButtonMiddle = 2); any other code is absent from the map. -/
def buttonsMap (code : Nat) : Option MButton :=
  if code = 0 then some MButton.btnLeft
  else if code = 1 then some MButton.btnRight
  else if code = 2 then some MButton.btnMiddle
  else none

/-- The `keys` translation map of the Go source, keyed by GLFW key codes;
left and right shift/control/alt collapse to one key each; any other code
is absent from the map. -/
def keysMap (code : Nat) : Option KeyV :=
  if code = 263 then some KeyV.keyLeft
  else if code = 262 then some KeyV.keyRight
  else if code = 265 then some KeyV.keyUp
  else if code = 264 then some KeyV.keyDown
  else if code = 256 then some KeyV.keyEscape
  else if code = 32 then some KeyV.keySpace
  else if code = 259 then some KeyV.keyBackspace
  else if code = 261 then some KeyV.keyDelete
  else if code = 257 then some KeyV.keyEnter
  else if code = 258 then some KeyV.keyTab
  else if code = 268 then some KeyV.keyHome
  else if code = 269 then some KeyV.keyEnd
  else if code = 266 then some KeyV.keyPageUp
  else if code = 267 then some KeyV.keyPageDown
  else if code = 340 then some KeyV.keyShift
  else if code = 344 then some KeyV.keyShift
  else if code = 341 then some KeyV.keyCtrl
  else if code = 345 then some KeyV.keyCtrl
  else if code = 342 then some KeyV.keyAlt
  else if code = 346 then some KeyV.keyAlt
  else none

/-- The cursor-position callback of eventThread: record the (truncated)
OS cursor position and emit MoMove at that position scaled by the DPI
ratio.  Returns the updated (moX, moY) thread-local state and the events
sent. -/
def cursorPosCallback (k : Int) (x y : Int) : (Int × Int) × List Event :=
  ((x, y), [Event.moMove ⟨x * k, y * k⟩])

/-- The mouse-button callback of eventThread: look the GLFW code up in the
buttons map — an absent code returns without sending — then emit MoDown /
MoUp at the last tracked cursor position scaled by the DPI ratio (the
switch has no case for a repeat action, so nothing is sent for it). -/
def mouseButtonCallback (k : Int) (moX moY : Int) (code : Nat)
    (action : GlfwAction) : List Event :=
  match buttonsMap code with
  | none => []
  | some b =>
    match action with
    | .press => [Event.moDown ⟨moX * k, moY * k⟩ b]
    | .release => [Event.moUp ⟨moX * k, moY * k⟩ b]
    | .rep => []

/-- The scroll callback of eventThread: emit MoScroll carrying the
truncated OS offsets directly (image.Pt(int(xoff), int(yoff))). -/
def scrollCallback (xoff yoff : Int) : List Event :=
  [Event.moScroll ⟨xoff, yoff⟩]

/-- The character callback of eventThread: emit KbType with the rune. -/
def charCallback (code : Nat) : List Event :=
  [Event.kbType code]

/-- The key callback of eventThread: look the GLFW code up in the keys
map — an absent code returns without sending — then emit KbDown / KbUp /
KbRepeat according to the action. -/
def keyCallback (code : Nat) (action : GlfwAction) : List Event :=
  match keysMap code with
  | none => []
  | some k =>
    match action with
    | .press => [Event.kbDown k]
    | .release => [Event.kbUp k]
    | .rep => [Event.kbRepeat k]

/-- The hiDPI ratio computation of the constructor New:
w.ratio = fbWidth / reqWidth (Go integer division); if w.ratio < 1 it is
set to 1. -/
def computeDpiScale (reqWidth fbWidth : Nat) : Nat :=
  let k := fbWidth / reqWidth
  if k < 1 then 1 else k

/-- The initial pixel-surface bounds built by New: when the ratio is not 1
the requested logical size is first divided by it (o.width /= w.ratio),
then bounds = image.Rect(0, 0, o.width*w.ratio, o.height*w.ratio). -/
def initialBounds (reqWidth reqHeight fbWidth : Nat) : Rct :=
  let k := computeDpiScale reqWidth fbWidth
  let w := if k ≠ 1 then reqWidth / k else reqWidth
  let h := if k ≠ 1 then reqHeight / k else reqHeight
  mkRect 0 0 (Int.ofNat (w * k)) (Int.ofNat (h * k))

/-- The events sent by eventThread ahead of its poll loop: after
registering the callbacks (which send nothing by themselves) it sends one
gui.Resize carrying w.img.Bounds(). -/
def eventThreadPrologue (imgBounds : Rct) : List Event :=
  [Event.resizeEv imgBounds]

/-- The outward event stream produced at startup, before the poll loop can
dispatch any OS callback: New allocates w.img = image.NewRGBA(bounds) and
eventThread then sends the one synthetic resize for its bounds. -/
def startupEvents (reqWidth reqHeight fbWidth : Nat) : List Event :=
  eventThreadPrologue (newRGBA (initialBounds reqWidth reqHeight fbWidth)).bounds

/-- A teardown action of eventThread's shutdown path. -/
inductive TearEffect where
  | closeEventsChan
  | destroyWindow
deriving DecidableEq, Repr

/-- The poll loop of eventThread: each iteration selects on the finish
latch; while it is open the loop just waits for OS events
(glfw.WaitEventsTimeout(1.0/30)); once the latch is observed closed the
thread closes the outward event channel, destroys the platform window and
returns.  The list records the latch observation of each iteration. -/
def eventLoop : List Bool → List TearEffect
  | [] => []
  | b :: bs =>
    if b then [TearEffect.closeEventsChan, TearEffect.destroyWindow]
    else eventLoop bs

/-- A blend-function factor passed to gl.BlendFunc. -/
inductive BlendFactor where
  | one
  | oneMinusSrcAlpha
  | srcAlpha
deriving DecidableEq, Repr

/-- A GL command issued by the flush routines, in the order the source
issues them.  drawArrays carries first and count for gl.TRIANGLES mode;
texSubImage2D carries the destination sub-rectangle of the screen
texture. -/
inductive GLCmd where
  | texSubImage2D (r : Rct)
  | enableDepthTest
  | depthFuncLess
  | scissor (x y w h : Int)
  | enableScissorTest
  | clearDepthBufferBit
  | disableScissorTest
  | useProgram
  | enableBlend
  | blendFunc (src dst : BlendFactor)
  | bindVertexArray
  | activeTexture0
  | bindTexture
  | drawArrays (first count : Int)
  | swapBuffersCmd
  | glFlushCmd
  | disableBlend
deriving DecidableEq, Repr

/-- (*Win).openGLRenderGui of win.go as the list of GL commands it issues:
intersect the damage rectangle with the surface bounds and return early if
empty; otherwise upload the sub-image, enable depth testing, and — once per
each of the two swap buffers — scissor the Y-flipped damage rectangle,
clear only the depth buffer inside it, disable scissoring, bind the
program, enable blending with the premultiplied-alpha factors
(gl.ONE, gl.ONE_MINUS_SRC_ALPHA), bind the quad and texture, call
gl.DrawArrays(gl.TRIANGLES, 0, 6*2*3) and swap buffers; finally disable
blending. -/
def openGLRenderGui (bounds : Rct) (fbHeight : Int) (r0 : Rct) : List GLCmd :=
  let r := r0.inter bounds
  if r.isEmpty then []
  else
    let pass : List GLCmd :=
      [GLCmd.scissor r.minP.x (fbHeight - r.maxP.y) r.dx r.dy,
       GLCmd.enableScissorTest,
       GLCmd.clearDepthBufferBit,
       GLCmd.disableScissorTest,
       GLCmd.useProgram,
       GLCmd.enableBlend,
       GLCmd.blendFunc BlendFactor.one BlendFactor.oneMinusSrcAlpha,
       GLCmd.bindVertexArray,
       GLCmd.activeTexture0,
       GLCmd.bindTexture,
       GLCmd.drawArrays 0 (6 * 2 * 3),
       GLCmd.swapBuffersCmd]
    [GLCmd.texSubImage2D r, GLCmd.enableDepthTest, GLCmd.depthFuncLess]
      ++ pass ++ pass ++ [GLCmd.disableBlend]

/-- (*Win).openGLFlush of the simpler window variant as the list of GL
commands it issues: intersect the damage rectangle with the surface bounds
and return early if empty; otherwise upload the sub-image, bind program,
quad and texture, call gl.DrawArrays(gl.TRIANGLES, 0, 6*2*3) and
gl.Flush. -/
def openGLFlush (bounds : Rct) (r0 : Rct) : List GLCmd :=
  let r := r0.inter bounds
  if r.isEmpty then []
  else
    [GLCmd.texSubImage2D r,
     GLCmd.useProgram,
     GLCmd.bindVertexArray,
     GLCmd.activeTexture0,
     GLCmd.bindTexture,
     GLCmd.drawArrays 0 (6 * 2 * 3),
     GLCmd.glFlushCmd]

/-- The texture-upload rectangles occurring in a GL command list. -/
def uploadRects : List GLCmd → List Rct
  | [] => []
  | GLCmd.texSubImage2D r :: cs => r :: uploadRects cs
  | _ :: cs => uploadRects cs

/-- A message the openGLThread select-loops can receive: a resize
notification, a successfully received draw closure (modelled by the new
pixel lookup it produces together with the footprint rectangle it
returns), the draw channel reporting closed, a successfully received GL
closure, the GL channel reporting closed, or the flush timer firing. -/
inductive Msg where
  | resize (r : Rct)
  | draw (f : Surface → (Pt → Pixel) × Rct)
  | drawClosed
  | glRun
  | glClosed
  | tick

/-- Whether a message is a resize or draw submission. -/
def Msg.isSubmission : Msg → Bool
  | .resize _ => true
  | .draw _ => true
  | _ => false

/-- Whether a message is the flush timer firing. -/
def Msg.isTick : Msg → Bool
  | .tick => true
  | _ => false

/-- An observable effect of one coordinator step. -/
inductive Effect where
  | deleteTexture
  | remakeTexture (w h : Int)
  | renderGui (r : Rct)
  | swapBuffers
  | runGLClosure
  | closeFinish
deriving DecidableEq, Repr

/-- The state of the openGLThread loop: the owned pixel surface, the
accumulated damage rectangle totalR, whether control sits at the outer
select (where no flush timer races) and whether the goroutine has
returned. -/
structure CoordState where
  img : Surface
  totalR : Rct
  inOuter : Bool
  finished : Bool

/-- One select-branch of openGLThread (win.go).  The outer and inner
selects have identical resize/draw/GL branches; the flush-timer branch
exists only in the inner select, so a tick is ignored at the outer wait.
A closed draw or GL channel closes the finish latch and returns; after
the goroutine has returned no further message is processed. -/
def step (s : CoordState) (m : Msg) : CoordState × List Effect :=
  if s.finished then (s, [])
  else
    match m with
    | .resize r =>
      let img2 := resizeImg s.img r
      ({ s with img := img2, totalR := s.totalR.union r, inOuter := false },
       [Effect.deleteTexture, Effect.remakeTexture img2.bounds.dx img2.bounds.dy])
    | .draw f =>
      let res := f s.img
      ({ s with img := ⟨s.img.bounds, res.1⟩,
                totalR := s.totalR.union res.2, inOuter := false },
       [])
    | .drawClosed =>
      ({ s with finished := true }, [Effect.closeFinish])
    | .glRun =>
      ({ s with inOuter := false },
       [Effect.runGLClosure, Effect.renderGui s.totalR, Effect.swapBuffers])
    | .glClosed =>
      ({ s with finished := true }, [Effect.closeFinish])
    | .tick =>
      if s.inOuter then (s, [])
      else
        ({ s with totalR := ZR, inOuter := true },
         [Effect.renderGui s.totalR, Effect.swapBuffers])

/-- Run the coordinator over a list of messages, concatenating the effect
traces of the steps. -/
def runMsgs (s : CoordState) : List Msg → CoordState × List Effect
  | [] => (s, [])
  | m :: ms =>
    let stepped := step s m
    let rest := runMsgs stepped.1 ms
    (rest.1, stepped.2 ++ rest.2)

/-- The footprint rectangles the submissions of a message list report as
they are executed against the evolving state: a resize contributes its new
bounds, a draw closure the rectangle it returns when run on the current
surface. -/
def reportedRects (s : CoordState) : List Msg → List Rct
  | [] => []
  | m :: ms =>
    (match m with
     | .resize r => [r]
     | .draw f => [(f s.img).2]
     | _ => []) ++ reportedRects (step s m).1 ms

/-- A rectangle is contained in itself. -/
theorem Rct.isIn_self (r : Rct) : r.isIn r = true := by
  obtain ⟨⟨a, b⟩, ⟨c, d⟩⟩ := r
  simp only [Rct.isIn, Rct.isEmpty]
  split_ifs <;> simp_all

/-- Union grows the left operand: r ⊆ r ∪ t. -/
theorem Rct.isIn_union_left (r t : Rct) : r.isIn (r.union t) = true := by
  obtain ⟨⟨a, b⟩, ⟨c, d⟩⟩ := r
  obtain ⟨⟨e, f⟩, ⟨g, h⟩⟩ := t
  simp only [Rct.union, Rct.isIn, Rct.isEmpty]
  split_ifs <;> simp_all

/-- Intersection lands inside the right operand: r ∩ b ⊆ b. -/
theorem Rct.isIn_inter_right (r b : Rct) : (r.inter b).isIn b = true := by
  obtain ⟨⟨a, a2⟩, ⟨c, c2⟩⟩ := r
  obtain ⟨⟨e, e2⟩, ⟨g, g2⟩⟩ := b
  simp only [Rct.inter, Rct.isIn, Rct.isEmpty, ZR]
  split_ifs <;> simp_all

/-- Membership in an intersection is membership in both operands. -/
theorem Pt.inRect_inter_iff (p : Pt) (a b : Rct) :
    p.inRect (a.inter b) = true ↔ (p.inRect a = true ∧ p.inRect b = true) := by
  obtain ⟨px, py⟩ := p
  obtain ⟨⟨a1, a2⟩, ⟨a3, a4⟩⟩ := a
  obtain ⟨⟨b1, b2⟩, ⟨b3, b4⟩⟩ := b
  simp only [Rct.inter, Rct.isEmpty, ZR]
  split_ifs <;> simp_all [Pt.inRect] <;> omega

/-- Subtracting and re-adding the same point is the identity. -/
theorem Pt.sub_add_self (p m : Pt) : (p.sub m).add m = p := by
  simp [Pt.sub, Pt.add]

/-- Translating a rectangle by the zero offset of a point against itself. -/
theorem Rct.addPt_sub_self (r : Rct) (m : Pt) : r.addPt (m.sub m) = r := by
  simp [Rct.addPt, Pt.sub, Pt.add]

/-- The flush of win.go uploads exactly the damage rectangle clipped to the
surface bounds, or nothing when that clip is empty. -/
theorem uploadRects_renderGui (bounds : Rct) (fbh : Int) (r : Rct) :
    uploadRects (openGLRenderGui bounds fbh r) =
      if (r.inter bounds).isEmpty then [] else [r.inter bounds] := by
  simp only [openGLRenderGui]
  split_ifs with h
  · rfl
  · simp [uploadRects]

/-- A finished coordinator processes nothing. -/
theorem step_finished (s : CoordState) (m : Msg) (h : s.finished = true) :
    step s m = (s, []) := by
  simp [step, h]

/-- A finished coordinator produces no further effects for any message
list. -/
theorem runMsgs_finished (s : CoordState) (ms : List Msg) (h : s.finished = true) :
    runMsgs s ms = (s, []) := by
  induction ms with
  | nil => rfl
  | cons m ms ih => simp [runMsgs, step_finished s m h, ih]

/-- Accumulation invariant of the coordinator loop: over resize and draw
submissions the damage rectangle becomes the left fold of Union over the
reported footprints, and the goroutine keeps running. -/
theorem runMsgs_totalR (ms : List Msg) : ∀ s : CoordState, s.finished = false →
    ms.all Msg.isSubmission = true →
    (runMsgs s ms).1.totalR = (reportedRects s ms).foldl Rct.union s.totalR ∧
    (runMsgs s ms).1.finished = false := by
  induction ms with
  | nil =>
    intro s hf _
    exact ⟨rfl, hf⟩
  | cons m ms ih =>
    intro s hf hall
    simp only [List.all_cons, Bool.and_eq_true] at hall
    match m with
    | .resize r =>
      have hstep : step s (Msg.resize r)
          = ({ s with img := resizeImg s.img r,
                      totalR := s.totalR.union r, inOuter := false },
             [Effect.deleteTexture,
              Effect.remakeTexture (resizeImg s.img r).bounds.dx
                (resizeImg s.img r).bounds.dy]) := by
        simp [step, hf]
      have hrec := ih { s with img := resizeImg s.img r,
                               totalR := s.totalR.union r, inOuter := false }
        hf hall.2
      simp only [runMsgs, reportedRects, hstep, List.singleton_append,
        List.foldl_cons]
      exact hrec
    | .draw f =>
      have hstep : step s (Msg.draw f)
          = ({ s with img := ⟨s.img.bounds, (f s.img).1⟩,
                      totalR := s.totalR.union (f s.img).2, inOuter := false },
             []) := by
        simp [step, hf]
      have hrec := ih { s with img := ⟨s.img.bounds, (f s.img).1⟩,
                               totalR := s.totalR.union (f s.img).2,
                               inOuter := false }
        hf hall.2
      simp only [runMsgs, reportedRects, hstep, List.singleton_append,
        List.foldl_cons]
      exact hrec
    | .drawClosed => simp [Msg.isSubmission] at hall
    | .glRun => simp [Msg.isSubmission] at hall
    | .glClosed => simp [Msg.isSubmission] at hall
    | .tick => simp [Msg.isSubmission] at hall

/-- The finish latch is closed at most once, and exactly once when some
submission channel reports closed. -/
theorem closeFinish_count (ms : List Msg) : ∀ s : CoordState, s.finished = false →
    (runMsgs s ms).2.count Effect.closeFinish ≤ 1 ∧
    ((Msg.drawClosed ∈ ms ∨ Msg.glClosed ∈ ms) →
      (runMsgs s ms).2.count Effect.closeFinish = 1) := by
  induction ms with
  | nil =>
    intro s hf
    refine ⟨by simp [runMsgs], ?_⟩
    rintro (h | h) <;> cases h
  | cons m ms ih =>
    intro s hf
    match m with
    | .drawClosed =>
      have hstep : step s Msg.drawClosed
          = ({ s with finished := true }, [Effect.closeFinish]) := by
        simp [step, hf]
      have hrest : runMsgs { s with finished := true } ms
          = ({ s with finished := true }, []) := runMsgs_finished _ _ rfl
      simp [runMsgs, hstep, hrest]
    | .glClosed =>
      have hstep : step s Msg.glClosed
          = ({ s with finished := true }, [Effect.closeFinish]) := by
        simp [step, hf]
      have hrest : runMsgs { s with finished := true } ms
          = ({ s with finished := true }, []) := runMsgs_finished _ _ rfl
      simp [runMsgs, hstep, hrest]
    | .resize r =>
      have hstep : step s (Msg.resize r)
          = ({ s with img := resizeImg s.img r,
                      totalR := s.totalR.union r, inOuter := false },
             [Effect.deleteTexture,
              Effect.remakeTexture (resizeImg s.img r).bounds.dx
                (resizeImg s.img r).bounds.dy]) := by
        simp [step, hf]
      have hrec := ih { s with img := resizeImg s.img r,
                               totalR := s.totalR.union r, inOuter := false } hf
      constructor
      · simp only [runMsgs, hstep]
        simpa using hrec.1
      · intro hmem
        have hmem2 : Msg.drawClosed ∈ ms ∨ Msg.glClosed ∈ ms := by
          rcases hmem with h | h <;> [left; right] <;>
            simpa using (List.mem_cons.mp h).resolve_left (by intro hc; cases hc)
        simp only [runMsgs, hstep]
        simpa using hrec.2 hmem2
    | .draw f =>
      have hstep : step s (Msg.draw f)
          = ({ s with img := ⟨s.img.bounds, (f s.img).1⟩,
                      totalR := s.totalR.union (f s.img).2, inOuter := false },
             []) := by
        simp [step, hf]
      have hrec := ih { s with img := ⟨s.img.bounds, (f s.img).1⟩,
                               totalR := s.totalR.union (f s.img).2,
                               inOuter := false } hf
      constructor
      · simp only [runMsgs, hstep]
        simpa using hrec.1
      · intro hmem
        have hmem2 : Msg.drawClosed ∈ ms ∨ Msg.glClosed ∈ ms := by
          rcases hmem with h | h <;> [left; right] <;>
            simpa using (List.mem_cons.mp h).resolve_left (by intro hc; cases hc)
        simp only [runMsgs, hstep]
        simpa using hrec.2 hmem2
    | .glRun =>
      have hstep : step s Msg.glRun
          = ({ s with inOuter := false },
             [Effect.runGLClosure, Effect.renderGui s.totalR,
              Effect.swapBuffers]) := by
        simp [step, hf]
      have hrec := ih { s with inOuter := false } hf
      constructor
      · simp only [runMsgs, hstep]
        simpa using hrec.1
      · intro hmem
        have hmem2 : Msg.drawClosed ∈ ms ∨ Msg.glClosed ∈ ms := by
          rcases hmem with h | h <;> [left; right] <;>
            simpa using (List.mem_cons.mp h).resolve_left (by intro hc; cases hc)
        simp only [runMsgs, hstep]
        simpa using hrec.2 hmem2
    | .tick =>
      by_cases ho : s.inOuter
      · have hstep : step s Msg.tick = (s, []) := by simp [step, hf, ho]
        have hrec := ih s hf
        constructor
        · simp only [runMsgs, hstep]
          simpa using hrec.1
        · intro hmem
          have hmem2 : Msg.drawClosed ∈ ms ∨ Msg.glClosed ∈ ms := by
            rcases hmem with h | h <;> [left; right] <;>
              simpa using (List.mem_cons.mp h).resolve_left (by intro hc; cases hc)
          simp only [runMsgs, hstep]
          simpa using hrec.2 hmem2
      · have hstep : step s Msg.tick
            = ({ s with totalR := ZR, inOuter := true },
               [Effect.renderGui s.totalR, Effect.swapBuffers]) := by
          simp [step, hf, ho]
        have hrec := ih { s with totalR := ZR, inOuter := true } hf
        constructor
        · simp only [runMsgs, hstep]
          simpa using hrec.1
        · intro hmem
          have hmem2 : Msg.drawClosed ∈ ms ∨ Msg.glClosed ∈ ms := by
            rcases hmem with h | h <;> [left; right] <;>
              simpa using (List.mem_cons.mp h).resolve_left (by intro hc; cases hc)
          simp only [runMsgs, hstep]
          simpa using hrec.2 hmem2

/-- The event thread's shutdown path runs at most once, and exactly once
when the finish latch is ever observed closed. -/
theorem eventLoop_count (obs : List Bool) :
    (eventLoop obs).count TearEffect.closeEventsChan ≤ 1 ∧
    (eventLoop obs).count TearEffect.destroyWindow ≤ 1 ∧
    (true ∈ obs →
      (eventLoop obs).count TearEffect.closeEventsChan = 1 ∧
      (eventLoop obs).count TearEffect.destroyWindow = 1) := by
  induction obs with
  | nil => simp [eventLoop]
  | cons b bs ih =>
    cases b
    · simpa [eventLoop] using ih
    · simp [eventLoop]

/-- C1: for every sequence of draw closures (and resize notifications)
serviced between two flushes — i.e. starting from an outer-wait state with
empty damage — the accumulated damage rectangle equals the union of the
rectangles returned by the closures together with the resize rectangles,
and the region the next flush actually uploads is that union intersected
with the current surface bounds (empty clip meaning no upload). -/
theorem damage_accumulation_c1 (s : CoordState) (ms : List Msg) (fbh : Int)
    (hz : s.totalR = ZR) (hf : s.finished = false)
    (hs : ms.all Msg.isSubmission = true) :
    (runMsgs s ms).1.totalR = (reportedRects s ms).foldl Rct.union ZR ∧
    uploadRects (openGLRenderGui (runMsgs s ms).1.img.bounds fbh
        (runMsgs s ms).1.totalR) =
      if (((reportedRects s ms).foldl Rct.union ZR).inter
            (runMsgs s ms).1.img.bounds).isEmpty then []
      else [((reportedRects s ms).foldl Rct.union ZR).inter
              (runMsgs s ms).1.img.bounds] := by
  have h := runMsgs_totalR ms s hf hs
  have h1 : (runMsgs s ms).1.totalR = (reportedRects s ms).foldl Rct.union ZR := by
    rw [h.1, hz]
  exact ⟨h1, by rw [uploadRects_renderGui, h1]⟩

/-- An outer-wait coordinator state used to instantiate C1. -/
def c1State : CoordState :=
  ⟨⟨mkRect 0 0 100 100, fun _ => zeroPixel⟩, ZR, true, false⟩

/-- Two draw closures and one resize, as serviced between two flushes. -/
def c1Msgs : List Msg :=
  [Msg.draw (fun s => (s.pix, mkRect 0 0 10 10)),
   Msg.resize (mkRect 0 0 50 50),
   Msg.draw (fun s => (s.pix, mkRect 20 20 30 40))]

/-- Witness for C1 at a concrete message sequence. -/
theorem damage_accumulation_c1_witness :
    c1State.totalR = ZR ∧ c1State.finished = false ∧
    c1Msgs.all Msg.isSubmission = true ∧
    ((runMsgs c1State c1Msgs).1.totalR
        = (reportedRects c1State c1Msgs).foldl Rct.union ZR ∧
     uploadRects (openGLRenderGui (runMsgs c1State c1Msgs).1.img.bounds 100
         (runMsgs c1State c1Msgs).1.totalR) =
       if (((reportedRects c1State c1Msgs).foldl Rct.union ZR).inter
             (runMsgs c1State c1Msgs).1.img.bounds).isEmpty then []
       else [((reportedRects c1State c1Msgs).foldl Rct.union ZR).inter
               (runMsgs c1State c1Msgs).1.img.bounds]) :=
  ⟨rfl, rfl, rfl, damage_accumulation_c1 c1State c1Msgs 100 rfl rfl rfl⟩

/-- C2 counterexample: the extra composite pass performed after a GPU
closure does not reset the damage rectangle — the step runs the closure,
renders and swaps, yet totalR keeps its previous non-empty value. -/
theorem damage_reset_c2_counterexample :
    (step ⟨⟨mkRect 0 0 100 100, fun _ => zeroPixel⟩,
           mkRect 0 0 10 10, false, false⟩ Msg.glRun).2
      = [Effect.runGLClosure, Effect.renderGui (mkRect 0 0 10 10),
         Effect.swapBuffers] ∧
    (step ⟨⟨mkRect 0 0 100 100, fun _ => zeroPixel⟩,
           mkRect 0 0 10 10, false, false⟩ Msg.glRun).1.totalR
      = mkRect 0 0 10 10 ∧
    mkRect 0 0 10 10 ≠ ZR :=
  ⟨rfl, rfl, by decide⟩

/-- C2 (amended): between flushes the damage rectangle grows monotonically
under every non-tick message; the timer-driven flush resets it to the
empty rectangle immediately (the composite pass after a GPU closure leaves
it unchanged, see the counterexample); and every rectangle the flush
uploads — the damage intersected with the surface bounds — is contained in
the surface bounds. -/
theorem damage_invariants_c2_amended (s : CoordState) (m : Msg)
    (bounds dmg : Rct) (fbh : Int)
    (hf : s.finished = false) (hm : m.isTick = false) (hin : s.inOuter = false) :
    s.totalR.isIn ((step s m).1.totalR) = true ∧
    (step s Msg.tick).1.totalR = ZR ∧
    (step s Msg.tick).2 = [Effect.renderGui s.totalR, Effect.swapBuffers] ∧
    ∀ u ∈ uploadRects (openGLRenderGui bounds fbh dmg), u.isIn bounds = true := by
  refine ⟨?_, ?_, ?_, ?_⟩
  · match m with
    | .resize r => simpa [step, hf] using Rct.isIn_union_left s.totalR r
    | .draw f => simpa [step, hf] using Rct.isIn_union_left s.totalR (f s.img).2
    | .drawClosed => simpa [step, hf] using Rct.isIn_self s.totalR
    | .glRun => simpa [step, hf] using Rct.isIn_self s.totalR
    | .glClosed => simpa [step, hf] using Rct.isIn_self s.totalR
    | .tick => simp [Msg.isTick] at hm
  · simp [step, hf, hin]
  · simp [step, hf, hin]
  · intro u hu
    rw [uploadRects_renderGui] at hu
    split_ifs at hu with h
    · cases hu
    · simp only [List.mem_singleton] at hu
      subst hu
      exact Rct.isIn_inter_right dmg bounds

/-- An inner-loop coordinator state used to instantiate C2. -/
def c2State : CoordState :=
  ⟨⟨mkRect 0 0 20 20, fun _ => zeroPixel⟩, mkRect 0 0 5 5, false, false⟩

/-- Witness for C2 (amended) at a concrete state and resize message. -/
theorem damage_invariants_c2_amended_witness :
    c2State.finished = false ∧
    (Msg.resize (mkRect 0 0 8 8)).isTick = false ∧
    c2State.inOuter = false ∧
    (c2State.totalR.isIn ((step c2State (Msg.resize (mkRect 0 0 8 8))).1.totalR)
        = true ∧
     (step c2State Msg.tick).1.totalR = ZR ∧
     (step c2State Msg.tick).2
        = [Effect.renderGui c2State.totalR, Effect.swapBuffers] ∧
     ∀ u ∈ uploadRects (openGLRenderGui (mkRect 0 0 20 20) 20 (mkRect 1 1 6 6)),
       u.isIn (mkRect 0 0 20 20) = true) :=
  ⟨rfl, rfl, rfl,
   damage_invariants_c2_amended c2State (Msg.resize (mkRect 0 0 8 8))
     (mkRect 0 0 20 20) (mkRect 1 1 6 6) 20 rfl rfl rfl⟩

/-- C3: once a submission channel (draw or GL) reports closed, the finish
latch is closed exactly once — even when both channels close around the
same time — and the event thread, observing the latch, closes the outward
event channel exactly once and destroys the platform window exactly
once. -/
theorem teardown_once_c3 (ms : List Msg) (s : CoordState) (obs : List Bool)
    (hf : s.finished = false)
    (hclosed : Msg.drawClosed ∈ ms ∨ Msg.glClosed ∈ ms)
    (hobs : true ∈ obs) :
    (runMsgs s ms).2.count Effect.closeFinish = 1 ∧
    (eventLoop obs).count TearEffect.closeEventsChan = 1 ∧
    (eventLoop obs).count TearEffect.destroyWindow = 1 :=
  ⟨(closeFinish_count ms s hf).2 hclosed,
   ((eventLoop_count obs).2.2 hobs).1,
   ((eventLoop_count obs).2.2 hobs).2⟩

/-- A running coordinator state used to instantiate C3. -/
def c3State : CoordState :=
  ⟨⟨mkRect 0 0 40 40, fun _ => zeroPixel⟩, ZR, true, false⟩

/-- Witness for C3: both submission channels close back to back, and the
poll loop observes the latch on its second iteration. -/
theorem teardown_once_c3_witness :
    c3State.finished = false ∧
    (Msg.drawClosed ∈ [Msg.drawClosed, Msg.glClosed] ∨
      Msg.glClosed ∈ [Msg.drawClosed, Msg.glClosed]) ∧
    true ∈ [false, true] ∧
    ((runMsgs c3State [Msg.drawClosed, Msg.glClosed]).2.count Effect.closeFinish = 1 ∧
     (eventLoop [false, true]).count TearEffect.closeEventsChan = 1 ∧
     (eventLoop [false, true]).count TearEffect.destroyWindow = 1) :=
  ⟨rfl, Or.inl (by simp), by simp,
   teardown_once_c3 [Msg.drawClosed, Msg.glClosed] c3State [false, true]
     rfl (Or.inl (by simp)) (by simp)⟩

/-- C4 counterexample: with DPI ratio 2, a scroll callback with OS offsets
(1, 1) delivers MoScroll (1, 1), not the ratio-scaled (2, 2) the claim
demands for every pointer coordinate. -/
theorem scroll_unscaled_c4_counterexample :
    scrollCallback 1 1 = [Event.moScroll ⟨1, 1⟩] ∧
    (Event.moScroll ⟨1, 1⟩ : Event) ≠ Event.moScroll ⟨1 * 2, 1 * 2⟩ :=
  ⟨rfl, by decide⟩

/-- C4 (amended): the DPI ratio computed at construction equals
floor(F / W) clamped to a minimum of 1, and cursor-move and mouse-button
events carry the OS-reported (respectively last-tracked) coordinate
multiplied by this ratio — but scroll events deliver the raw OS offsets
unscaled. -/
theorem dpi_scaling_c4_amended (reqW fbW : Nat) (k x y moX moY xoff yoff : Int) :
    computeDpiScale reqW fbW = max (fbW / reqW) 1 ∧
    cursorPosCallback k x y = ((x, y), [Event.moMove ⟨x * k, y * k⟩]) ∧
    mouseButtonCallback k moX moY 0 GlfwAction.press
      = [Event.moDown ⟨moX * k, moY * k⟩ MButton.btnLeft] ∧
    mouseButtonCallback k moX moY 1 GlfwAction.press
      = [Event.moDown ⟨moX * k, moY * k⟩ MButton.btnRight] ∧
    mouseButtonCallback k moX moY 2 GlfwAction.release
      = [Event.moUp ⟨moX * k, moY * k⟩ MButton.btnMiddle] ∧
    scrollCallback xoff yoff = [Event.moScroll ⟨xoff, yoff⟩] := by
  refine ⟨?_, rfl, rfl, rfl, rfl, rfl⟩
  simp only [computeDpiScale]
  split_ifs <;> omega

/-- C5: a resize of the pixel surface preserves every pixel in the
intersection of the old and new bounds, and every pixel of the new surface
outside the old bounds starts out as the transparent zero RGBA value. -/
theorem resize_preserves_c5 (img : Surface) (r : Rct) (p q : Pt)
    (hp : p.inRect (img.bounds.inter r) = true)
    (hq1 : q.inRect r = true) (hq2 : q.inRect img.bounds = false) :
    (resizeImg img r).pix p = img.pix p ∧ (resizeImg img r).pix q = zeroPixel := by
  have key := Rct.addPt_sub_self img.bounds img.bounds.minP
  constructor
  · have hpB : p.inRect img.bounds = true :=
      ((Pt.inRect_inter_iff p img.bounds r).mp hp).1
    have hpc : p.inRect ((img.bounds.inter r).inter img.bounds) = true :=
      (Pt.inRect_inter_iff p (img.bounds.inter r) img.bounds).mpr ⟨hp, hpB⟩
    simp [resizeImg, drawSrc, newRGBA, key, hpc, Pt.sub_add_self]
  · have hqc : q.inRect ((img.bounds.inter r).inter img.bounds) = false := by
      cases h : q.inRect ((img.bounds.inter r).inter img.bounds)
      · rfl
      · exact absurd ((Pt.inRect_inter_iff q (img.bounds.inter r) img.bounds).mp h).2
          (by simp [hq2])
    simp [resizeImg, drawSrc, newRGBA, key, hqc, zeroPixel]

/-- A 4×4 surface with one red pixel, used to instantiate C5. -/
def c5Img : Surface :=
  ⟨mkRect 0 0 4 4, fun t => if t = ⟨1, 1⟩ then ⟨255, 0, 0, 255⟩ else zeroPixel⟩

/-- Witness for C5: resizing the 4×4 surface to 2×6 keeps the red pixel at
(1, 1) and every fresh pixel such as (1, 5) is transparent. -/
theorem resize_preserves_c5_witness :
    (⟨1, 1⟩ : Pt).inRect (c5Img.bounds.inter (mkRect 0 0 2 6)) = true ∧
    (⟨1, 5⟩ : Pt).inRect (mkRect 0 0 2 6) = true ∧
    (⟨1, 5⟩ : Pt).inRect c5Img.bounds = false ∧
    ((resizeImg c5Img (mkRect 0 0 2 6)).pix ⟨1, 1⟩ = c5Img.pix ⟨1, 1⟩ ∧
     (resizeImg c5Img (mkRect 0 0 2 6)).pix ⟨1, 5⟩ = zeroPixel) :=
  ⟨by decide, by decide, by decide,
   resize_preserves_c5 c5Img (mkRect 0 0 2 6) ⟨1, 1⟩ ⟨1, 5⟩
     (by decide) (by decide) (by decide)⟩

/-- C6: a GPU closure received while the coordinator runs is executed and,
within that same step — before any further submission or the flush timer
is waited on — the coordinator performs the extra composite pass: it
renders the accumulated damage region and swaps the buffers, leaving the
surface, damage and running status untouched. -/
theorem gl_immediate_composite_c6 (s : CoordState) (hf : s.finished = false) :
    (step s Msg.glRun).2
      = [Effect.runGLClosure, Effect.renderGui s.totalR, Effect.swapBuffers] ∧
    (step s Msg.glRun).1.totalR = s.totalR ∧
    (step s Msg.glRun).1.finished = false ∧
    (step s Msg.glRun).1.img = s.img := by
  refine ⟨?_, ?_, ?_, ?_⟩ <;> simp [step, hf]

/-- An inner-loop coordinator state used to instantiate C6. -/
def c6State : CoordState :=
  ⟨⟨mkRect 0 0 30 30, fun _ => zeroPixel⟩, mkRect 2 2 9 9, false, false⟩

/-- Witness for C6 at a concrete running state. -/
theorem gl_immediate_composite_c6_witness :
    c6State.finished = false ∧
    ((step c6State Msg.glRun).2
        = [Effect.runGLClosure, Effect.renderGui c6State.totalR,
           Effect.swapBuffers] ∧
     (step c6State Msg.glRun).1.totalR = c6State.totalR ∧
     (step c6State Msg.glRun).1.finished = false ∧
     (step c6State Msg.glRun).1.img = c6State.img) :=
  ⟨rfl, gl_immediate_composite_c6 c6State rfl⟩

/-- C7 (documenting the code bug): flushing the non-empty in-bounds damage
rectangle (0,0)-(50,50) on a 100×100 surface issues exactly the commands
below — blending is enabled with the premultiplied-alpha factors
(ONE, ONE_MINUS_SRC_ALPHA), the scissored depth-clear-and-draw runs once
per each of the two swap buffers, and blending is disabled afterward — but
every draw call is gl.DrawArrays(gl.TRIANGLES, 0, 6*2*3), requesting 36
vertices although the quad buffer holds only the 6 vertices of the
full-screen quad's two triangles; no 6-vertex draw is ever issued. -/
theorem flush_draw_count_c7 :
    openGLRenderGui (mkRect 0 0 100 100) 100 (mkRect 0 0 50 50)
      = [GLCmd.texSubImage2D (mkRect 0 0 50 50), GLCmd.enableDepthTest,
         GLCmd.depthFuncLess,
         GLCmd.scissor 0 50 50 50, GLCmd.enableScissorTest,
         GLCmd.clearDepthBufferBit, GLCmd.disableScissorTest,
         GLCmd.useProgram, GLCmd.enableBlend,
         GLCmd.blendFunc BlendFactor.one BlendFactor.oneMinusSrcAlpha,
         GLCmd.bindVertexArray, GLCmd.activeTexture0, GLCmd.bindTexture,
         GLCmd.drawArrays 0 36, GLCmd.swapBuffersCmd,
         GLCmd.scissor 0 50 50 50, GLCmd.enableScissorTest,
         GLCmd.clearDepthBufferBit, GLCmd.disableScissorTest,
         GLCmd.useProgram, GLCmd.enableBlend,
         GLCmd.blendFunc BlendFactor.one BlendFactor.oneMinusSrcAlpha,
         GLCmd.bindVertexArray, GLCmd.activeTexture0, GLCmd.bindTexture,
         GLCmd.drawArrays 0 36, GLCmd.swapBuffersCmd,
         GLCmd.disableBlend] ∧
    GLCmd.drawArrays 0 36
      ∈ openGLRenderGui (mkRect 0 0 100 100) 100 (mkRect 0 0 50 50) ∧
    ∀ c ∈ openGLRenderGui (mkRect 0 0 100 100) 100 (mkRect 0 0 50 50),
      c ≠ GLCmd.drawArrays 0 6 := by
  refine ⟨by decide, by decide, by decide⟩

/-- C8: a flush whose damage rectangle clips to nothing against the
surface bounds — empty or lying outside them — issues no GL command at all
in either window variant: no texture upload, no draw call, a silent
no-op. -/
theorem flush_noop_c8 (bounds : Rct) (fbh : Int) (r : Rct)
    (he : (r.inter bounds).isEmpty = true) :
    openGLRenderGui bounds fbh r = [] ∧ openGLFlush bounds r = [] := by
  constructor
  · simp [openGLRenderGui, he]
  · simp [openGLFlush, he]

/-- Witness for C8: a damage rectangle strictly outside the bounds. -/
theorem flush_noop_c8_witness :
    ((mkRect 20 20 30 30).inter (mkRect 0 0 10 10)).isEmpty = true ∧
    (openGLRenderGui (mkRect 0 0 10 10) 10 (mkRect 20 20 30 30) = [] ∧
     openGLFlush (mkRect 0 0 10 10) (mkRect 20 20 30 30) = []) :=
  ⟨by decide, flush_noop_c8 (mkRect 0 0 10 10) 10 (mkRect 20 20 30 30) (by decide)⟩

/-- C9: an OS mouse-button or key callback whose code is absent from the
buttons or keys translation map emits no event at all — the input is
dropped silently, whatever the action. -/
theorem unsupported_input_dropped_c9 (bcode kcode : Nat) (k moX moY : Int)
    (act1 act2 : GlfwAction)
    (hb : buttonsMap bcode = none) (hk : keysMap kcode = none) :
    mouseButtonCallback k moX moY bcode act1 = [] ∧ keyCallback kcode act2 = [] := by
  constructor
  · simp [mouseButtonCallback, hb]
  · simp [keyCallback, hk]

/-- Witness for C9: GLFW button code 7 and key code 300 are outside the
supported enumerated sets. -/
theorem unsupported_input_dropped_c9_witness :
    buttonsMap 7 = none ∧ keysMap 300 = none ∧
    (mouseButtonCallback 1 3 4 7 GlfwAction.press = [] ∧
     keyCallback 300 GlfwAction.press = []) :=
  ⟨by decide, by decide,
   unsupported_input_dropped_c9 7 300 1 3 4 GlfwAction.press GlfwAction.press
     (by decide) (by decide)⟩

/-- C10: before the poll loop can dispatch any OS input callback, the
event thread emits exactly one event: the synthetic Resize carrying the
initial pixel-surface bounds (0, 0, width·ratio, height·ratio); it is the
first event any consumer observes. -/
theorem startup_resize_c10 (reqW reqH fbW : Nat) :
    startupEvents reqW reqH fbW
      = [Event.resizeEv (initialBounds reqW reqH fbW)] ∧
    (startupEvents reqW reqH fbW).head?
      = some (Event.resizeEv (initialBounds reqW reqH fbW)) ∧
    (startupEvents reqW reqH fbW).count
      (Event.resizeEv (initialBounds reqW reqH fbW)) = 1 := by
  refine ⟨rfl, rfl, ?_⟩
  simp [startupEvents, eventThreadPrologue, newRGBA]

end GuiGL
